import Mathlib

set_option linter.unusedVariables false

/-!
Shallow embedding of src/src/services/sseService.js (class SSEService).

The service is single-threaded and event-driven.  Each method and each
transport callback (onopen, onmessage, onerror, the named addEventListener
handlers, the setTimeout retry callback) is embedded as a pure function from
the service state to a new state together with a list of observable effects
(logging, creating/closing a transport handle, emitting to the listener
registry, notifying connection listeners, scheduling a timer, invoking the
token-refresh hook).  Browser builtins that the code calls (EventSource,
JSON.parse, encodeURIComponent, setTimeout) are external to the repository
and are modelled explicitly; the model bookkeeping field nextHandleId gives
each created EventSource a distinct identity.
-/

namespace SSE

/-- Model of the browser builtin encodeURIComponent: characters outside the
unreserved set are replaced by percent-encoded UTF-8 bytes. -/
def hexDigit (n : Nat) : Char :=
  if n < 10 then Char.ofNat (48 + n) else Char.ofNat (55 + n)

/-- Unreserved characters of encodeURIComponent: alphanumerics and - _ . ! ~ * quote ( ). -/
def isUnreservedChar (c : Char) : Bool :=
  c.isAlphanum || c = Char.ofNat 45 || c = Char.ofNat 95 || c = Char.ofNat 46 ||
    c = Char.ofNat 33 || c = Char.ofNat 126 || c = Char.ofNat 42 || c = Char.ofNat 39 ||
    c = Char.ofNat 40 || c = Char.ofNat 41

/-- Percent-encode one byte. -/
def encodeByte (b : Nat) : String :=
  String.mk [Char.ofNat 37, hexDigit (b / 16), hexDigit (b % 16)]

/-- Model of the browser builtin encodeURIComponent. -/
def encodeURIComponent (s : String) : String :=
  String.join (s.toList.map (fun c =>
    if isUnreservedChar c then String.mk [c]
    else String.join (((String.mk [c]).toUTF8.toList).map (fun b => encodeByte b.toNat))))

/-- Substring occurrence over character lists. -/
def containsSub : List Char → List Char → Bool
  | [], sub => sub.isEmpty
  | c :: cs, sub => sub.isPrefixOf (c :: cs) || containsSub cs sub

/-- Model of JavaScript String.prototype.includes (used as API_BASE_URL.includes). -/
def includes (s sub : String) : Bool :=
  containsSub s.toList sub.toList

/-- URL construction performed by connect (line 34 of sseService.js):
base + /api/sse-simple/?token= + encodeURIComponent token, with the
ngrok-skip-browser-warning flag appended when the base URL mentions ngrok. -/
def buildUrl (base token : String) : String :=
  let url := base ++ "/api/sse-simple/?token=" ++ encodeURIComponent token
  if includes base ("ngrok") then url ++ "&ngrok-skip-browser-warning=true" else url

/-- A transport handle (one EventSource instance): its identity and the URL it
was opened on. -/
structure Handle where
  id : Nat
  url : String
  deriving DecidableEq, Repr

/-- Data carried by emit calls made inside the service itself. -/
inductive EmitData where
  | statusConnected
  | maxAttemptsError
  | payload (data : String)
  deriving DecidableEq, Repr

/-- Observable effects of a service operation, in program order. -/
inductive Effect where
  | logError (msg : String)
  | log (msg : String)
  | createHandle (h : Handle)
  | closeHandle (h : Handle)
  | emitEv (event : String) (data : EmitData)
  | notifyConn (status : String)
  | scheduleTimeout (delay : Nat)
  | invokeTokenRefresh
  deriving DecidableEq, Repr

/-- The mutable fields of class SSEService (constructor, lines 4-15).
tokenRefreshCallback records whether a hook is registered; the hook itself is
externally owned, so its behaviour is passed to onerror as an argument.
nextHandleId is model bookkeeping giving each new EventSource a fresh id. -/
structure SSEService where
  eventSource : Option Handle
  reconnectAttempts : Nat
  maxReconnectAttempts : Nat
  reconnectDelay : Nat
  listeners : List (String × List Nat)
  isConnected : Bool
  shouldReconnect : Bool
  connectionListeners : List Nat
  lastToken : Option String
  tokenRefreshCallback : Bool
  nextHandleId : Nat
  deriving DecidableEq, Repr

/-- The constructor state: new SSEService(). -/
def initState : SSEService :=
  { eventSource := none
    reconnectAttempts := 0
    maxReconnectAttempts := 5
    reconnectDelay := 1000
    listeners := []
    isConnected := false
    shouldReconnect := true
    connectionListeners := []
    lastToken := none
    tokenRefreshCallback := false
    nextHandleId := 0 }

/-- disconnect() (lines 196-206): set shouldReconnect false, close and null the
EventSource if present, mark disconnected, notify connection listeners. -/
def disconnect (s : SSEService) : SSEService × List Effect :=
  let s1 : SSEService := { s with shouldReconnect := false }
  match s1.eventSource with
  | some h =>
      ({ s1 with eventSource := none, isConnected := false },
        [Effect.closeHandle h, Effect.notifyConn ("disconnected")])
  | none =>
      ({ s1 with isConnected := false }, [Effect.notifyConn ("disconnected")])

/-- connect(token) (lines 21-45, synchronous prefix): if an EventSource exists,
disconnect first; then, if the token is missing (empty), log an error and
return; otherwise record lastToken, build the URL and open a new EventSource.
The handler registrations (lines 47-193) attach callbacks and are modelled by
the separate onopen / onmessage / onerror / namedEventHandler functions. -/
def connect (base token : String) (s : SSEService) : SSEService × List Effect :=
  let pre : SSEService × List Effect :=
    match s.eventSource with
    | some _ => disconnect s
    | none => (s, [])
  let s1 := pre.1
  if token = "" then
    (s1, pre.2 ++ [Effect.logError ("SSE: No token provided")])
  else
    let s2 : SSEService := { s1 with lastToken := some token }
    let h : Handle := { id := s2.nextHandleId, url := buildUrl base token }
    ({ s2 with eventSource := some h, nextHandleId := s2.nextHandleId + 1 },
      pre.2 ++ [Effect.log ("SSE: Connecting"), Effect.createHandle h])

/-- eventSource.onopen (lines 47-52): mark connected, reset the attempt
counter, emit a connected event and notify connection listeners. -/
def onopen (s : SSEService) : SSEService × List Effect :=
  ({ s with isConnected := true, reconnectAttempts := 0 },
    [Effect.emitEv ("connected") EmitData.statusConnected, Effect.notifyConn ("connected")])

/-- handleReconnect(token) (lines 208-220): below the cap, increment the
attempt counter and schedule a retry after reconnectDelay times the new
counter value; at the cap, emit a terminal connection_failed event. -/
def handleReconnect (token : String) (s : SSEService) : SSEService × List Effect :=
  if s.reconnectAttempts < s.maxReconnectAttempts then
    let s1 : SSEService := { s with reconnectAttempts := s.reconnectAttempts + 1 }
    (s1, [Effect.scheduleTimeout (s1.reconnectDelay * s1.reconnectAttempts)])
  else
    (s, [Effect.emitEv ("connection_failed") EmitData.maxAttemptsError])

/-- The setTimeout callback scheduled by handleReconnect (lines 212-215): when
the timer fires, reconnect only if shouldReconnect is still set. -/
def retryTimerFire (base token : String) (s : SSEService) : SSEService × List Effect :=
  if s.shouldReconnect then connect base token s else (s, [])

/-- eventSource.onerror (lines 63-94).  readyState is read from the transport;
refreshOutcome is the behaviour of the externally owned token-refresh hook for
this invocation: Except.error models the hook throwing, Except.ok none models
it returning null or undefined, Except.ok (some t) a string t.  The truthiness
test newToken and the inequality test against lastToken mirror line 81. -/
def onerror (base token : String) (refreshOutcome : Except Unit (Option String))
    (readyState : Nat) (s : SSEService) : SSEService × List Effect :=
  let pre : List Effect :=
    [Effect.logError ("SSE: Connection error"), Effect.notifyConn ("disconnected")]
  let s1 : SSEService := { s with isConnected := false }
  if readyState = 2 then
    if s1.shouldReconnect then
      if s1.tokenRefreshCallback = true ∧ s1.reconnectAttempts = 0 then
        match refreshOutcome with
        | Except.ok (some newToken) =>
            if newToken ≠ "" ∧ some newToken ≠ s1.lastToken then
              let r := connect base newToken s1
              (r.1, pre ++ [Effect.invokeTokenRefresh] ++ r.2)
            else
              let r := handleReconnect token s1
              (r.1, pre ++ [Effect.invokeTokenRefresh] ++ r.2)
        | Except.ok none =>
            let r := handleReconnect token s1
            (r.1, pre ++ [Effect.invokeTokenRefresh] ++ r.2)
        | Except.error _ =>
            let r := handleReconnect token s1
            (r.1, pre ++ [Effect.invokeTokenRefresh,
              Effect.logError ("SSE: Token refresh failed")] ++ r.2)
      else
        let r := handleReconnect token s1
        (r.1, pre ++ r.2)
    else (s1, pre)
  else (s1, pre)

/-- setTokenRefreshCallback (lines 17-19), modelled as registering or clearing
the hook. -/
def setTokenRefreshCallback (b : Bool) (s : SSEService) : SSEService :=
  { s with tokenRefreshCallback := b }

/-- Whitespace skipping for the JSON.parse model. -/
def skipWs : List Char → List Char
  | [] => []
  | c :: cs =>
      if c = Char.ofNat 32 || c = Char.ofNat 9 || c = Char.ofNat 10 || c = Char.ofNat 13 then
        skipWs cs
      else c :: cs

/-- Literal matching for the JSON.parse model. -/
def parseLiteral (lit : List Char) (cs : List Char) : Option (List Char) :=
  if lit.isPrefixOf cs then some (cs.drop lit.length) else none

/-- JSON string body (after the opening quote) for the JSON.parse model: a
backslash escapes the next character; an unescaped quote ends the string. -/
def parseStringBody : List Char → Option (List Char)
  | [] => none
  | c :: cs =>
      if c = Char.ofNat 34 then some cs
      else if c = Char.ofNat 92 then
        match cs with
        | [] => none
        | _ :: cs2 => parseStringBody cs2
      else parseStringBody cs

/-- JSON number tail (starting at its first digit) for the JSON.parse model. -/
def parseNumberTail (cs : List Char) : Option (List Char) :=
  let p1 := cs.span Char.isDigit
  if p1.1.isEmpty then none
  else
    let afterFrac : Option (List Char) :=
      match p1.2 with
      | c :: rest =>
          if c = Char.ofNat 46 then
            let p2 := rest.span Char.isDigit
            if p2.1.isEmpty then none else some p2.2
          else some p1.2
      | [] => some []
    match afterFrac with
    | none => none
    | some r3 =>
        match r3 with
        | c :: rest =>
            if c = Char.ofNat 101 || c = Char.ofNat 69 then
              let rest2 :=
                match rest with
                | d :: ds => if d = Char.ofNat 43 || d = Char.ofNat 45 then ds else rest
                | [] => []
              let p3 := rest2.span Char.isDigit
              if p3.1.isEmpty then none else some p3.2
            else some r3
        | [] => some []

mutual

/-- JSON value for the JSON.parse model (fuel-indexed recursive descent). -/
def parseValue : Nat → List Char → Option (List Char)
  | 0, _ => none
  | fuel + 1, cs =>
      match skipWs cs with
      | [] => none
      | c :: rest =>
          if c = Char.ofNat 34 then parseStringBody rest
          else if c = Char.ofNat 91 then parseArrayRest fuel rest true
          else if c = Char.ofNat 123 then parseObjectRest fuel rest true
          else if c = Char.ofNat 45 then parseNumberTail rest
          else if c.isDigit then parseNumberTail (c :: rest)
          else if c = Char.ofNat 110 then parseLiteral (("ull").toList) rest
          else if c = Char.ofNat 116 then parseLiteral (("rue").toList) rest
          else if c = Char.ofNat 102 then parseLiteral (("alse").toList) rest
          else none

/-- JSON array elements (after the opening bracket) for the JSON.parse model. -/
def parseArrayRest : Nat → List Char → Bool → Option (List Char)
  | 0, _, _ => none
  | fuel + 1, cs, isFirst =>
      match skipWs cs with
      | [] => none
      | c :: rest =>
          if c = Char.ofNat 93 && isFirst then some rest
          else
            match parseValue fuel (c :: rest) with
            | none => none
            | some r1 =>
                match skipWs r1 with
                | [] => none
                | d :: r2 =>
                    if d = Char.ofNat 93 then some r2
                    else if d = Char.ofNat 44 then parseArrayRest fuel r2 false
                    else none

/-- JSON object members (after the opening brace) for the JSON.parse model. -/
def parseObjectRest : Nat → List Char → Bool → Option (List Char)
  | 0, _, _ => none
  | fuel + 1, cs, isFirst =>
      match skipWs cs with
      | [] => none
      | c :: rest =>
          if c = Char.ofNat 125 && isFirst then some rest
          else if c = Char.ofNat 34 then
            match parseStringBody rest with
            | none => none
            | some r1 =>
                match skipWs r1 with
                | [] => none
                | d :: r2 =>
                    if d = Char.ofNat 58 then
                      match parseValue fuel r2 with
                      | none => none
                      | some r3 =>
                          match skipWs r3 with
                          | [] => none
                          | e :: r4 =>
                              if e = Char.ofNat 125 then some r4
                              else if e = Char.ofNat 44 then parseObjectRest fuel r4 false
                              else none
                    else none
          else none

end

/-- Model of the browser builtin JSON.parse, used only for whether it throws:
Except.ok returns the raw (validated) text as the parsed value, Except.error
models the thrown SyntaxError. -/
def jsonParse (s : String) : Except Unit String :=
  let cs := s.toList
  match parseValue (cs.length + 1) cs with
  | some rest => if skipWs rest = [] then Except.ok s else Except.error ()
  | none => Except.error ()

/-- eventSource.onmessage (lines 54-61): JSON.parse inside try/catch; on
success emit a generic message event, on failure handle the error silently. -/
def onmessage (s : SSEService) (data : String) : SSEService × List Effect :=
  match jsonParse data with
  | Except.ok j => (s, [Effect.emitEv ("message") (EmitData.payload j)])
  | Except.error _ => (s, [])

/-- The fixed list of named event types registered by connect (lines 97-193). -/
def namedEvents : List String :=
  ["connected", "heartbeat", "session_update", "session_invitation",
    "session_invitation_accepted", "session_invitation_rejected",
    "relationship_invitation", "notification", "session_deleted",
    "sessions_update", "objective_advancement", "session_status_change",
    "vote_update", "objective_transition", "session_completion",
    "end_session_vote_update", "session_summary_generated",
    "session_summary_generating", "session_summary_error", "objective_completion"]

/-- The per-name transport callbacks registered by connect (lines 97-193).
The heartbeat handler does nothing; every other handler calls JSON.parse with
no try/catch, so a parse failure propagates out of the callback (modelled by
Except.error); the connected handler parses but does not emit; every other
handler emits the parsed data under the same event name.  None of them touch
the service state. -/
def namedEventHandler (eventName : String) (s : SSEService) (data : String) :
    Except Unit (SSEService × List Effect) :=
  if eventName = "heartbeat" then Except.ok (s, [])
  else
    match jsonParse data with
    | Except.error e => Except.error e
    | Except.ok j =>
        if eventName = "connected" then Except.ok (s, [])
        else Except.ok (s, [Effect.emitEv eventName (EmitData.payload j)])

/-- Lookup in the JS Map this.listeners (callbacks are identified by ids,
mirroring reference equality of function objects). -/
def mapGet (m : List (String × List Nat)) (k : String) : Option (List Nat) :=
  match m with
  | [] => none
  | kv :: rest => if kv.1 = k then some kv.2 else mapGet rest k

/-- Map.set for this.listeners. -/
def mapSet (m : List (String × List Nat)) (k : String) (v : List Nat) :
    List (String × List Nat) :=
  match m with
  | [] => [(k, v)]
  | kv :: rest => if kv.1 = k then (k, v) :: rest else kv :: mapSet rest k v

/-- on(event, callback) (lines 228-233): create the entry if absent, then push
the callback at the end.  Named onEvent because on is a reserved token here. -/
def onEvent (s : SSEService) (event : String) (cb : Nat) : SSEService :=
  let existing := (mapGet s.listeners event).getD []
  { s with listeners := mapSet s.listeners event (existing ++ [cb]) }

/-- indexOf followed by splice(index, 1): remove the first occurrence only,
leaving the list unchanged when the callback is absent. -/
def spliceFirst (cb : Nat) : List Nat → List Nat
  | [] => []
  | c :: cs => if c = cb then cs else c :: spliceFirst cb cs

/-- off(event, callback) (lines 235-243). -/
def off (s : SSEService) (event : String) (cb : Nat) : SSEService :=
  match mapGet s.listeners event with
  | none => s
  | some callbacks =>
      { s with listeners := mapSet s.listeners event (spliceFirst cb callbacks) }

/-- emit(event, data) (lines 245-255): invoke every callback registered for
the event in order, each inside its own try/catch.  env gives each callback id
its behaviour (Except.error models a throwing callback); the result lists every
invocation with its captured outcome — emit itself is total, so no callback
failure propagates to the caller or prevents later invocations. -/
def emit (env : Nat → EmitData → Except Unit Unit) (s : SSEService) (event : String)
    (data : EmitData) : List (Nat × Except Unit Unit) :=
  match mapGet s.listeners event with
  | none => []
  | some callbacks => callbacks.map (fun cb => (cb, env cb data))

/-- Which of the three racing outcomes wins inside testConnection. -/
inductive TestOutcome where
  | opened
  | errored
  | timedOut
  deriving DecidableEq, Repr

/-- Events of the testConnection promise, in order. -/
inductive TestEv where
  | tCreate (url : String)
  | tClose
  | tResolve (success : Bool)
  deriving DecidableEq, Repr

/-- testConnection(token) (lines 289-330).  testUrl is declared with const and
then reassigned when the base URL mentions ngrok; that reassignment throws a
TypeError inside the promise executor, so the promise rejects (Except.error)
before any EventSource is created.  Otherwise each of the three racing
handlers closes the throwaway handle and then resolves exactly once. -/
def testConnection (base token : String) (outcome : TestOutcome) :
    Except Unit (List TestEv) :=
  let testUrl := base ++ "/api/sse-simple/?token=" ++ encodeURIComponent token
  if includes base ("ngrok") then Except.error ()
  else
    Except.ok ([TestEv.tCreate testUrl] ++
      match outcome with
      | TestOutcome.opened => [TestEv.tClose, TestEv.tResolve true]
      | TestOutcome.errored => [TestEv.tClose, TestEv.tResolve false]
      | TestOutcome.timedOut => [TestEv.tClose, TestEv.tResolve false])

/-- Every state-affecting entry point of the service, for stating invariants
over arbitrary interleavings of calls and callbacks. -/
inductive Op where
  | opConnect (token : String)
  | opDisconnect
  | opOnOpen
  | opOnMessage (data : String)
  | opOnError (token : String) (refreshOutcome : Except Unit (Option String)) (readyState : Nat)
  | opHandleReconnect (token : String)
  | opRetryTimerFire (token : String)
  | opSetTokenRefreshCallback (b : Bool)
  | opOn (event : String) (cb : Nat)
  | opOff (event : String) (cb : Nat)

/-- One step of the service: dispatch an operation to its embedding. -/
def step (base : String) (op : Op) (s : SSEService) : SSEService × List Effect :=
  match op with
  | Op.opConnect token => connect base token s
  | Op.opDisconnect => disconnect s
  | Op.opOnOpen => onopen s
  | Op.opOnMessage data => onmessage s data
  | Op.opOnError token ro rs => onerror base token ro rs s
  | Op.opHandleReconnect token => handleReconnect token s
  | Op.opRetryTimerFire token => retryTimerFire base token s
  | Op.opSetTokenRefreshCallback b => (setTokenRefreshCallback b s, [])
  | Op.opOn event cb => (onEvent s event cb, [])
  | Op.opOff event cb => (off s event cb, [])

/-- Run a sequence of operations, keeping the final state. -/
def runOps (base : String) (ops : List Op) (s : SSEService) : SSEService :=
  match ops with
  | [] => s
  | op :: rest => runOps base rest (step base op s).1

/-- The delays of the timers scheduled in an effect list, in order. -/
def timeoutDelays (l : List Effect) : List Nat :=
  l.filterMap (fun e =>
    match e with
    | Effect.scheduleTimeout d => some d
    | _ => none)

/-- How many times the token-refresh hook is invoked in an effect list. -/
def countTokenRefresh (l : List Effect) : Nat :=
  (l.filter (fun e =>
    match e with
    | Effect.invokeTokenRefresh => true
    | _ => false)).length

/-- How many connection_failed events are emitted in an effect list. -/
def countConnFailed (l : List Effect) : Nat :=
  (l.filter (fun e =>
    match e with
    | Effect.emitEv ev _ => ev = "connection_failed"
    | _ => false)).length

/-- The delays produced by n consecutive calls into the reconnection policy. -/
def retryDelays (tok : String) : Nat → SSEService → List Nat
  | 0, _ => []
  | n + 1, s =>
      timeoutDelays (handleReconnect tok s).2 ++
        retryDelays tok n (handleReconnect tok s).1

/-- How many of the recorded emit invocations went to callback cb. -/
def invocationsOf (cb : Nat) (l : List (Nat × Except Unit Unit)) : Nat :=
  (l.filter (fun p => p.1 == cb)).length

/- ------------------------------------------------------------------
Helper lemmas shared by the claim theorems.
------------------------------------------------------------------ -/

/-- disconnect never touches the attempt counter. -/
theorem disconnect_reconnectAttempts (s : SSEService) :
    (disconnect s).1.reconnectAttempts = s.reconnectAttempts := by
  unfold disconnect
  cases s.eventSource <;> simp

/-- connect never touches the attempt counter. -/
theorem connect_reconnectAttempts (base t : String) (s : SSEService) :
    (connect base t s).1.reconnectAttempts = s.reconnectAttempts := by
  unfold connect disconnect
  cases s.eventSource <;> by_cases h : t = "" <;> simp [h]

/-- connect schedules no timer. -/
theorem connect_no_timeout (base t : String) (s : SSEService) :
    timeoutDelays (connect base t s).2 = [] := by
  unfold connect disconnect
  cases s.eventSource <;> by_cases h : t = "" <;> simp [h, timeoutDelays]

/-- connect never invokes the token-refresh hook. -/
theorem connect_no_refresh (base t : String) (s : SSEService) :
    countTokenRefresh (connect base t s).2 = 0 := by
  unfold connect disconnect
  cases s.eventSource <;> by_cases h : t = "" <;> simp [h, countTokenRefresh]

/-- handleReconnect never invokes the token-refresh hook. -/
theorem handleReconnect_no_refresh (tok : String) (s : SSEService) :
    countTokenRefresh (handleReconnect tok s).2 = 0 := by
  unfold handleReconnect
  by_cases h : s.reconnectAttempts < s.maxReconnectAttempts <;>
    simp [h, countTokenRefresh]

/-- With a non-empty token, connect opens a fresh handle on the URL built from
that token and records the token. -/
theorem connect_opens_handle (base t : String) (s : SSEService) (h : t ≠ "") :
    (connect base t s).1.eventSource =
      some { id := s.nextHandleId, url := buildUrl base t } ∧
    (connect base t s).1.lastToken = some t ∧
    (connect base t s).1.nextHandleId = s.nextHandleId + 1 := by
  unfold connect disconnect
  cases s.eventSource <;> simp [h]

/-- C2: for every n from 1 to maxAttempts, the n-th call into the reconnection
policy (attempt counter n-1 before the call) increments the counter by exactly
one and schedules the retry after baseDelay times n; from the constructor
state (baseDelay 1000, maxAttempts 5) five consecutive policy calls schedule
delays 1000, 2000, 3000, 4000, 5000. -/
theorem C2_retry_delay_linear :
    (∀ (s : SSEService) (tok : String),
        s.reconnectAttempts < s.maxReconnectAttempts →
          (handleReconnect tok s).1.reconnectAttempts = s.reconnectAttempts + 1 ∧
          (handleReconnect tok s).2 =
            [Effect.scheduleTimeout (s.reconnectDelay * (s.reconnectAttempts + 1))]) ∧
    retryDelays ("tok") 5 initState = [1000, 2000, 3000, 4000, 5000] := by
  constructor
  · intro s tok h
    simp [handleReconnect, h]
  · decide

/-- When a transport handle exists, connect first emits the disconnect effects
(close, notify) and only then creates the new handle. -/
theorem connect_effects_on_handle (base t : String) (s : SSEService) (h : Handle)
    (hes : s.eventSource = some h) (ht : t ≠ "") :
    (connect base t s).2 =
      [Effect.closeHandle h, Effect.notifyConn ("disconnected"),
        Effect.log ("SSE: Connecting"),
        Effect.createHandle { id := s.nextHandleId, url := buildUrl base t }] := by
  unfold connect disconnect
  simp [hes, ht]

/-- C1: connect(T) immediately followed by connect(T2) leaves exactly one live
transport handle, bound to the URL built from T2; the second call closes and
clears the handle opened for T (the closeHandle effect precedes the
createHandle effect in its effect list), and the superseded handle is distinct
from the new one, so once closed it can deliver no further events. -/
theorem C1_supersede (base t tp : String) (s : SSEService)
    (ht : t ≠ "") (htp : tp ≠ "") :
    ∃ h1 h2 : Handle,
      (connect base t s).1.eventSource = some h1 ∧
      h1.url = buildUrl base t ∧
      (connect base tp (connect base t s).1).1.eventSource = some h2 ∧
      h2.url = buildUrl base tp ∧
      h1 ≠ h2 ∧
      (connect base tp (connect base t s).1).2 =
        [Effect.closeHandle h1, Effect.notifyConn ("disconnected"),
          Effect.log ("SSE: Connecting"), Effect.createHandle h2] := by
  obtain ⟨es1, _, nid1⟩ := connect_opens_handle base t s ht
  obtain ⟨es2, _, _⟩ := connect_opens_handle base tp (connect base t s).1 htp
  refine ⟨{ id := s.nextHandleId, url := buildUrl base t },
    { id := s.nextHandleId + 1, url := buildUrl base tp }, es1, rfl, ?_, rfl, ?_, ?_⟩
  · rw [es2, nid1]
  · simp
  · have he := connect_effects_on_handle base tp (connect base t s).1 _ es1 htp
    rw [he, nid1]

/-- Witness for C1: two successive connects from the constructor state. -/
theorem C1_supersede_witness :
    ∃ h1 h2 : Handle,
      (connect ("http://x") ("a") initState).1.eventSource = some h1 ∧
      h1.url = buildUrl ("http://x") ("a") ∧
      (connect ("http://x") ("b") (connect ("http://x") ("a") initState).1).1.eventSource =
        some h2 ∧
      h2.url = buildUrl ("http://x") ("b") ∧
      h1 ≠ h2 ∧
      (connect ("http://x") ("b") (connect ("http://x") ("a") initState).1).2 =
        [Effect.closeHandle h1, Effect.notifyConn ("disconnected"),
          Effect.log ("SSE: Connecting"), Effect.createHandle h2] :=
  C1_supersede ("http://x") ("a") ("b") initState (by decide) (by decide)

/-- Witness for C2 at the constructor state. -/
theorem C2_retry_delay_linear_witness :
    (handleReconnect ("tok") initState).1.reconnectAttempts =
      initState.reconnectAttempts + 1 ∧
    (handleReconnect ("tok") initState).2 =
      [Effect.scheduleTimeout (initState.reconnectDelay * (initState.reconnectAttempts + 1))] :=
  C2_retry_delay_linear.1 initState ("tok") (by decide)

/-- No operation of the service ever turns shouldReconnect back on: once the
flag is false, every entry point leaves it false. -/
theorem step_preserves_noReconnect (base : String) (op : Op) (s : SSEService)
    (h : s.shouldReconnect = false) : (step base op s).1.shouldReconnect = false := by
  cases op with
  | opConnect t =>
      simp only [step]
      unfold connect disconnect
      cases hes : s.eventSource <;> by_cases ht : t = "" <;> simp [hes, ht, h]
  | opDisconnect =>
      simp only [step]
      unfold disconnect
      cases hes : s.eventSource <;> simp [hes]
  | opOnOpen => simp [step, onopen, h]
  | opOnMessage data =>
      simp only [step]
      unfold onmessage
      cases hj : jsonParse data <;> simp [hj, h]
  | opOnError tok ro rs =>
      simp only [step]
      unfold onerror
      by_cases hrs : rs = 2 <;> simp [hrs, h]
  | opHandleReconnect tok =>
      simp only [step]
      unfold handleReconnect
      by_cases hcap : s.reconnectAttempts < s.maxReconnectAttempts <;> simp [hcap, h]
  | opRetryTimerFire tok =>
      simp only [step]
      unfold retryTimerFire
      simp [h]
  | opSetTokenRefreshCallback b => simp [step, setTokenRefreshCallback, h]
  | opOn event cb => simp [step, onEvent, h]
  | opOff event cb =>
      simp only [step]
      unfold off
      cases hm : mapGet s.listeners event <;> simp [hm, h]

/-- Once shouldReconnect is false it stays false across any run. -/
theorem runOps_preserves_noReconnect (base : String) (ops : List Op) (s : SSEService)
    (h : s.shouldReconnect = false) : (runOps base ops s).shouldReconnect = false := by
  induction ops generalizing s with
  | nil => exact h
  | cons op rest ih => exact ih _ (step_preserves_noReconnect base op s h)

/-- C4: a disconnect issued while a retry is pending suppresses that retry:
however the session is driven between the disconnect and the moment the timer
fires, the fired timer callback finds shouldReconnect false, does not call
connect, changes nothing and produces no effects. -/
theorem C4_disconnect_cancels_retry (base tok : String) (s : SSEService) (ops : List Op) :
    retryTimerFire base tok (runOps base ops (disconnect s).1) =
      (runOps base ops (disconnect s).1, []) := by
  have h1 : (disconnect s).1.shouldReconnect = false := by
    unfold disconnect
    cases hes : s.eventSource <;> simp [hes]
  have h2 := runOps_preserves_noReconnect base ops _ h1
  unfold retryTimerFire
  simp [h2]

/-- C10: shouldReconnect starts true in the constructor and is one-way: every
disconnect clears it, connect on a session that already holds a handle clears
it (it disconnects internally first), no entry point ever sets it back to
true, and once it is false a terminal transport error (readyState 2) only
marks the session disconnected — it schedules no retry and opens nothing. -/
theorem C10_autoreconnect_oneway :
    initState.shouldReconnect = true ∧
    (∀ s : SSEService, (disconnect s).1.shouldReconnect = false) ∧
    (∀ (base t : String) (s : SSEService), s.eventSource.isSome = true →
        (connect base t s).1.shouldReconnect = false) ∧
    (∀ (base : String) (op : Op) (s : SSEService),
        (step base op s).1.shouldReconnect = true → s.shouldReconnect = true) ∧
    (∀ (base tok : String) (ro : Except Unit (Option String)) (s : SSEService),
        s.shouldReconnect = false →
          onerror base tok ro 2 s =
            ({ s with isConnected := false },
              [Effect.logError ("SSE: Connection error"),
                Effect.notifyConn ("disconnected")])) := by
  refine ⟨rfl, ?_, ?_, ?_, ?_⟩
  · intro s
    unfold disconnect
    cases hes : s.eventSource <;> simp [hes]
  · intro base t s hsome
    obtain ⟨h, hes⟩ := Option.isSome_iff_exists.mp hsome
    unfold connect disconnect
    by_cases ht : t = "" <;> simp [hes, ht]
  · intro base op s hst
    by_contra hfalse
    have hf : s.shouldReconnect = false := by
      cases hb : s.shouldReconnect
      · rfl
      · exact absurd hb hfalse
    have := step_preserves_noReconnect base op s hf
    rw [this] at hst
    exact Bool.false_ne_true hst
  · intro base tok ro s h
    unfold onerror
    simp [h]

/-- Witness for C10: a superseding connect leaves auto-reconnect off. -/
theorem C10_autoreconnect_oneway_witness :
    (connect ("http://x") ("t2") (connect ("http://x") ("t1") initState).1).1.shouldReconnect =
      false :=
  C10_autoreconnect_oneway.2.2.1 ("http://x") ("t2")
    (connect ("http://x") ("t1") initState).1 (by decide)

/-- handleReconnect never decreases the attempt counter. -/
theorem handleReconnect_reconnectAttempts_ge (tok : String) (s : SSEService) :
    s.reconnectAttempts ≤ (handleReconnect tok s).1.reconnectAttempts := by
  unfold handleReconnect
  by_cases h : s.reconnectAttempts < s.maxReconnectAttempts <;> simp [h]

/-- onerror never decreases the attempt counter. -/
theorem onerror_reconnectAttempts_ge (base tok : String)
    (ro : Except Unit (Option String)) (rs : Nat) (s : SSEService) :
    s.reconnectAttempts ≤ (onerror base tok ro rs s).1.reconnectAttempts := by
  unfold onerror
  by_cases hrs : rs = 2
  · by_cases hsr : s.shouldReconnect = true
    · by_cases hc : s.tokenRefreshCallback = true ∧ s.reconnectAttempts = 0
      · cases ro with
        | error e =>
            simp only [hrs, hsr, hc, if_true, if_pos]
            simp [hc, hsr, handleReconnect_reconnectAttempts_ge tok _]
        | ok o =>
            cases o with
            | none =>
                simp [hrs, hsr, hc, handleReconnect_reconnectAttempts_ge tok _]
            | some nt =>
                by_cases hcond : nt ≠ "" ∧ some nt ≠ s.lastToken
                · simp [hrs, hsr, hc, hcond, connect_reconnectAttempts]
                · simp [hrs, hsr, hc, hcond, handleReconnect_reconnectAttempts_ge tok _]
      · simp [hrs, hsr, hc]
        exact handleReconnect_reconnectAttempts_ge tok
          { s with isConnected := false, shouldReconnect := true }
    · have hf : s.shouldReconnect = false := by
        cases hb : s.shouldReconnect
        · rfl
        · exact absurd hb hsr
      simp [hrs, hf]
  · simp [hrs]

/-- C5: a call into the reconnection policy with the attempt counter at the
cap schedules nothing, leaves the state (counter included) untouched and emits
the terminal connection_failed event exactly once; below the cap no
connection_failed is emitted; the on-open handler resets the counter to 0;
and no other entry point ever decreases the counter, so only a successful
open resets it. -/
theorem C5_exhaustion_terminal :
    (∀ (s : SSEService) (tok : String),
        s.maxReconnectAttempts ≤ s.reconnectAttempts →
          handleReconnect tok s =
            (s, [Effect.emitEv ("connection_failed") EmitData.maxAttemptsError])) ∧
    (∀ (s : SSEService) (tok : String),
        s.reconnectAttempts < s.maxReconnectAttempts →
          countConnFailed (handleReconnect tok s).2 = 0) ∧
    (∀ s : SSEService, (onopen s).1.reconnectAttempts = 0) ∧
    (∀ (base : String) (op : Op) (s : SSEService), op ≠ Op.opOnOpen →
        s.reconnectAttempts ≤ (step base op s).1.reconnectAttempts) := by
  refine ⟨?_, ?_, ?_, ?_⟩
  · intro s tok h
    have h2 : ¬ s.reconnectAttempts < s.maxReconnectAttempts := by omega
    unfold handleReconnect
    simp [h2]
  · intro s tok h
    unfold handleReconnect
    simp [h, countConnFailed]
  · intro s
    simp [onopen]
  · intro base op s hop
    cases op with
    | opConnect t => simp [step, connect_reconnectAttempts]
    | opDisconnect => simp [step, disconnect_reconnectAttempts]
    | opOnOpen => exact absurd rfl hop
    | opOnMessage data =>
        simp only [step]
        unfold onmessage
        cases hj : jsonParse data <;> simp [hj]
    | opOnError tok ro rs => exact onerror_reconnectAttempts_ge base tok ro rs s
    | opHandleReconnect tok => exact handleReconnect_reconnectAttempts_ge tok s
    | opRetryTimerFire tok =>
        simp only [step]
        unfold retryTimerFire
        by_cases h : s.shouldReconnect = true
        · simp [h, connect_reconnectAttempts]
        · have hf : s.shouldReconnect = false := by
            cases hb : s.shouldReconnect
            · rfl
            · exact absurd hb h
          simp [hf]
    | opSetTokenRefreshCallback b => simp [step, setTokenRefreshCallback]
    | opOn event cb => simp [step, onEvent]
    | opOff event cb =>
        simp only [step]
        unfold off
        cases hm : mapGet s.listeners event <;> simp [hm]

/-- Witness for C5: an exhausted policy call at counter 5 from the default
configuration emits the terminal event and changes nothing. -/
theorem C5_exhaustion_terminal_witness :
    handleReconnect ("tok") { initState with reconnectAttempts := 5 } =
      ({ initState with reconnectAttempts := 5 },
        [Effect.emitEv ("connection_failed") EmitData.maxAttemptsError]) :=
  C5_exhaustion_terminal.1 { initState with reconnectAttempts := 5 } ("tok") (by decide)

/-- Filter counts distribute over list append. -/
theorem countTokenRefresh_append (a b : List Effect) :
    countTokenRefresh (a ++ b) = countTokenRefresh a + countTokenRefresh b := by
  simp [countTokenRefresh, List.filter_append]

/-- Timer delays distribute over list append. -/
theorem timeoutDelays_append (a b : List Effect) :
    timeoutDelays (a ++ b) = timeoutDelays a ++ timeoutDelays b := by
  simp [timeoutDelays, List.filterMap_append]

/-- onerror branch: first failure, hook registered, hook yields a usable new
token — immediate reconnect with it. -/
theorem onerror_refresh_connect (base tok nt : String) (s : SSEService)
    (h0 : s.reconnectAttempts = 0) (hsr : s.shouldReconnect = true)
    (hcb : s.tokenRefreshCallback = true) (hnt : nt ≠ "") (hne : some nt ≠ s.lastToken) :
    onerror base tok (Except.ok (some nt)) 2 s =
      ((connect base nt { s with isConnected := false }).1,
        [Effect.logError ("SSE: Connection error"), Effect.notifyConn ("disconnected"),
          Effect.invokeTokenRefresh] ++ (connect base nt { s with isConnected := false }).2) := by
  unfold onerror
  simp [hsr, hcb, h0, hnt, hne]

/-- onerror branch: first failure, hook registered, hook throws — fall through
to the reconnection policy. -/
theorem onerror_refresh_throw (base tok : String) (s : SSEService)
    (h0 : s.reconnectAttempts = 0) (hsr : s.shouldReconnect = true)
    (hcb : s.tokenRefreshCallback = true) :
    onerror base tok (Except.error ()) 2 s =
      ((handleReconnect tok { s with isConnected := false }).1,
        [Effect.logError ("SSE: Connection error"), Effect.notifyConn ("disconnected"),
          Effect.invokeTokenRefresh, Effect.logError ("SSE: Token refresh failed")] ++
          (handleReconnect tok { s with isConnected := false }).2) := by
  unfold onerror
  simp [hsr, hcb, h0]

/-- onerror branch: first failure, hook registered, hook returns null or
undefined — fall through to the reconnection policy. -/
theorem onerror_refresh_null (base tok : String) (s : SSEService)
    (h0 : s.reconnectAttempts = 0) (hsr : s.shouldReconnect = true)
    (hcb : s.tokenRefreshCallback = true) :
    onerror base tok (Except.ok none) 2 s =
      ((handleReconnect tok { s with isConnected := false }).1,
        [Effect.logError ("SSE: Connection error"), Effect.notifyConn ("disconnected"),
          Effect.invokeTokenRefresh] ++
          (handleReconnect tok { s with isConnected := false }).2) := by
  unfold onerror
  simp [hsr, hcb, h0]

/-- onerror branch: first failure, hook registered, hook returns an empty
token or the held one — fall through to the reconnection policy. -/
theorem onerror_refresh_useless (base tok nt : String) (s : SSEService)
    (h0 : s.reconnectAttempts = 0) (hsr : s.shouldReconnect = true)
    (hcb : s.tokenRefreshCallback = true)
    (hcond : ¬(nt ≠ "" ∧ some nt ≠ s.lastToken)) :
    onerror base tok (Except.ok (some nt)) 2 s =
      ((handleReconnect tok { s with isConnected := false }).1,
        [Effect.logError ("SSE: Connection error"), Effect.notifyConn ("disconnected"),
          Effect.invokeTokenRefresh] ++
          (handleReconnect tok { s with isConnected := false }).2) := by
  unfold onerror
  simp [hsr, hcb, h0, hcond]

/-- onerror branch: no hook registered — straight to the reconnection policy. -/
theorem onerror_no_hook (base tok : String) (ro : Except Unit (Option String))
    (s : SSEService) (hsr : s.shouldReconnect = true)
    (hcb : s.tokenRefreshCallback = false) :
    onerror base tok ro 2 s =
      ((handleReconnect tok { s with isConnected := false }).1,
        [Effect.logError ("SSE: Connection error"), Effect.notifyConn ("disconnected")] ++
          (handleReconnect tok { s with isConnected := false }).2) := by
  unfold onerror
  cases ro with
  | error e => simp [hsr, hcb]
  | ok o => cases o <;> simp [hsr, hcb]

/-- C3: on a terminal transport error (readyState 2) that is the first failure
since the last successful open (counter 0), with a hook registered the hook is
invoked exactly once whatever it does; if it yields a non-empty token distinct
from the held one, the session reconnects immediately with that token — the
counter stays 0, no retry timer is scheduled, and the new handle carries the
URL built from the new token; if the hook throws, returns the held token, or
is absent, control falls through to handleReconnect. -/
theorem C3_token_refresh (base tok : String) (s : SSEService)
    (h0 : s.reconnectAttempts = 0) (hsr : s.shouldReconnect = true) :
    (s.tokenRefreshCallback = true →
      ∀ ro : Except Unit (Option String),
        countTokenRefresh (onerror base tok ro 2 s).2 = 1) ∧
    (s.tokenRefreshCallback = true →
      ∀ nt : String, nt ≠ "" → some nt ≠ s.lastToken →
        (onerror base tok (Except.ok (some nt)) 2 s).1 =
          (connect base nt { s with isConnected := false }).1 ∧
        (onerror base tok (Except.ok (some nt)) 2 s).1.reconnectAttempts = 0 ∧
        timeoutDelays (onerror base tok (Except.ok (some nt)) 2 s).2 = [] ∧
        (onerror base tok (Except.ok (some nt)) 2 s).1.eventSource =
          some { id := s.nextHandleId, url := buildUrl base nt } ∧
        (onerror base tok (Except.ok (some nt)) 2 s).1.lastToken = some nt) ∧
    (s.tokenRefreshCallback = true →
      onerror base tok (Except.error ()) 2 s =
        ((handleReconnect tok { s with isConnected := false }).1,
          [Effect.logError ("SSE: Connection error"), Effect.notifyConn ("disconnected"),
            Effect.invokeTokenRefresh, Effect.logError ("SSE: Token refresh failed")] ++
            (handleReconnect tok { s with isConnected := false }).2)) ∧
    (s.tokenRefreshCallback = true →
      ∀ nt : String, some nt = s.lastToken →
        onerror base tok (Except.ok (some nt)) 2 s =
          ((handleReconnect tok { s with isConnected := false }).1,
            [Effect.logError ("SSE: Connection error"), Effect.notifyConn ("disconnected"),
              Effect.invokeTokenRefresh] ++
              (handleReconnect tok { s with isConnected := false }).2)) ∧
    (s.tokenRefreshCallback = false →
      ∀ ro : Except Unit (Option String),
        onerror base tok ro 2 s =
          ((handleReconnect tok { s with isConnected := false }).1,
            [Effect.logError ("SSE: Connection error"), Effect.notifyConn ("disconnected")] ++
              (handleReconnect tok { s with isConnected := false }).2)) := by
  refine ⟨?_, ?_, ?_, ?_, ?_⟩
  · intro hcb ro
    cases ro with
    | error e =>
        cases e
        rw [onerror_refresh_throw base tok s h0 hsr hcb]
        show countTokenRefresh (_ ++ _) = 1
        rw [countTokenRefresh_append, handleReconnect_no_refresh]
        rfl
    | ok o =>
        cases o with
        | none =>
            rw [onerror_refresh_null base tok s h0 hsr hcb]
            show countTokenRefresh (_ ++ _) = 1
            rw [countTokenRefresh_append, handleReconnect_no_refresh]
            rfl
        | some nt =>
            by_cases hcond : nt ≠ "" ∧ some nt ≠ s.lastToken
            · rw [onerror_refresh_connect base tok nt s h0 hsr hcb hcond.1 hcond.2]
              show countTokenRefresh (_ ++ _) = 1
              rw [countTokenRefresh_append, connect_no_refresh]
              rfl
            · rw [onerror_refresh_useless base tok nt s h0 hsr hcb hcond]
              show countTokenRefresh (_ ++ _) = 1
              rw [countTokenRefresh_append, handleReconnect_no_refresh]
              rfl
  · intro hcb nt hnt hne
    have hfull := onerror_refresh_connect base tok nt s h0 hsr hcb hnt hne
    have hstate : (onerror base tok (Except.ok (some nt)) 2 s).1 =
        (connect base nt { s with isConnected := false }).1 := by
      rw [hfull]
    have heff : timeoutDelays (onerror base tok (Except.ok (some nt)) 2 s).2 = [] := by
      rw [hfull]
      show timeoutDelays (_ ++ _) = []
      rw [timeoutDelays_append, connect_no_timeout]
      rfl
    obtain ⟨hes, hlt, _⟩ := connect_opens_handle base nt { s with isConnected := false } hnt
    refine ⟨hstate, ?_, heff, ?_, ?_⟩
    · rw [hstate, connect_reconnectAttempts]
      exact h0
    · rw [hstate, hes]
    · rw [hstate, hlt]
  · intro hcb
    exact onerror_refresh_throw base tok s h0 hsr hcb
  · intro hcb nt hsame
    refine onerror_refresh_useless base tok nt s h0 hsr hcb ?_
    intro hcontra
    exact hcontra.2 hsame
  · intro hcb ro
    exact onerror_no_hook base tok ro s hsr hcb

/-- A concrete session for the C3 witness: connected once with token t1 and
holding a registered token-refresh hook. -/
def refreshWitnessState : SSEService :=
  setTokenRefreshCallback true (connect ("http://x") ("t1") initState).1

/-- Witness for C3: from refreshWitnessState, a hook yielding the fresh token
t2 is invoked once and reconnects immediately on the URL built from t2 with
the counter still 0 and no retry timer scheduled. -/
theorem C3_token_refresh_witness :
    countTokenRefresh
        (onerror ("http://x") ("t1") (Except.ok (some ("t2"))) 2 refreshWitnessState).2 = 1 ∧
    (onerror ("http://x") ("t1") (Except.ok (some ("t2"))) 2 refreshWitnessState).1.reconnectAttempts = 0 ∧
    timeoutDelays
        (onerror ("http://x") ("t1") (Except.ok (some ("t2"))) 2 refreshWitnessState).2 = [] ∧
    (onerror ("http://x") ("t1") (Except.ok (some ("t2"))) 2 refreshWitnessState).1.eventSource =
      some { id := refreshWitnessState.nextHandleId, url := buildUrl ("http://x") ("t2") } := by
  have h := C3_token_refresh ("http://x") ("t1") refreshWitnessState (by decide) (by decide)
  have h1 := h.1 (by decide) (Except.ok (some ("t2")))
  have h2 := h.2.1 (by decide) ("t2") (by decide) (by decide)
  exact ⟨h1, h2.2.1, h2.2.2.1, h2.2.2.2.1⟩

/-- C6 counterexample: the per-name transport callback registered for the
notification event calls JSON.parse with no try/catch (sseService.js lines
130-133), so a malformed payload makes the parse exception escape the
event-handling path instead of being swallowed inside the session — refuting
the claim that no exception escapes. -/
theorem C6_counterexample :
    namedEventHandler ("notification") initState ("oops") = Except.error () := rfl

/-- C6 amended: a malformed payload on a named event is not swallowed — the
parse exception propagates out of that per-event callback (only the generic
onmessage handler swallows parse failures) — but the session state is
untouched by the failed delivery and a subsequent well-formed payload on the
same name is still parsed and fanned out under that name. -/
theorem C6_amended_parse_escape (name : String) (s : SSEService) (bad good : String)
    (hmem : name ∈ namedEvents) (hhb : name ≠ "heartbeat")
    (hbad : jsonParse bad = Except.error ())
    (hgood : jsonParse good = Except.ok good) :
    namedEventHandler name s bad = Except.error () ∧
    (name ≠ "connected" →
      namedEventHandler name s good =
        Except.ok (s, [Effect.emitEv name (EmitData.payload good)])) ∧
    onmessage s bad = (s, []) := by
  refine ⟨?_, ?_, ?_⟩
  · unfold namedEventHandler
    simp [hhb, hbad]
  · intro hc
    unfold namedEventHandler
    simp [hhb, hc, hgood]
  · unfold onmessage
    simp [hbad]

/-- Witness for the amended C6 on the notification event: the malformed
payload oops escapes as an error, the well-formed payload null is still
delivered afterwards, and the generic message path drops oops silently. -/
theorem C6_amended_parse_escape_witness :
    namedEventHandler ("notification") initState ("oops") = Except.error () ∧
    namedEventHandler ("notification") initState ("null") =
      Except.ok (initState, [Effect.emitEv ("notification") (EmitData.payload ("null"))]) ∧
    onmessage initState ("oops") = (initState, []) := by
  have h := C6_amended_parse_escape ("notification") initState ("oops") ("null")
    (by decide) (by decide) (by rfl) (by rfl)
  exact ⟨h.1, h.2.1 (by decide), h.2.2⟩

/-- C7 counterexample: on a session that holds a live transport handle,
connect with an empty token is not side-effect-free — the internal disconnect
runs before the token check, so the handle is closed and cleared, auto
reconnect is turned off and a close effect is produced, refuting the claim
that no session field changes and no handle is destroyed. -/
theorem C7_counterexample :
    (connect ("http://x") ("") (connect ("http://x") ("t1") initState).1).1 ≠
      (connect ("http://x") ("t1") initState).1 ∧
    (connect ("http://x") ("") (connect ("http://x") ("t1") initState).1).1.eventSource =
      none ∧
    (connect ("http://x") ("") (connect ("http://x") ("t1") initState).1).1.shouldReconnect =
      false ∧
    (connect ("http://x") ("") (connect ("http://x") ("t1") initState).1).2 =
      [Effect.closeHandle { id := 0, url := buildUrl ("http://x") ("t1") },
        Effect.notifyConn ("disconnected"),
        Effect.logError ("SSE: No token provided")] := by
  refine ⟨?_, rfl, rfl, rfl⟩
  decide

/-- C7 amended: connect with a missing (empty) token logs and aborts without
creating a handle and without touching lastToken or the attempt counter; it is
free of further side effects only when no transport handle is held — when one
is held, the internal disconnect first closes and clears it, disables
auto-reconnect and marks the session disconnected, and only then does the
token check abort. -/
theorem C7_amended_empty_token (base : String) (s : SSEService) :
    (s.eventSource = none →
      connect base ("") s = (s, [Effect.logError ("SSE: No token provided")])) ∧
    (∀ h : Handle, s.eventSource = some h →
      connect base ("") s =
        ({ s with shouldReconnect := false, eventSource := none, isConnected := false },
          [Effect.closeHandle h, Effect.notifyConn ("disconnected"),
            Effect.logError ("SSE: No token provided")])) ∧
    (connect base ("") s).1.lastToken = s.lastToken ∧
    (connect base ("") s).1.reconnectAttempts = s.reconnectAttempts ∧
    (∀ h2 : Handle, Effect.createHandle h2 ∉ (connect base ("") s).2) := by
  refine ⟨?_, ?_, ?_, ?_, ?_⟩
  · intro hes
    unfold connect
    simp [hes]
  · intro h hes
    unfold connect disconnect
    simp [hes]
  · unfold connect disconnect
    cases hes : s.eventSource <;> simp [hes]
  · unfold connect disconnect
    cases hes : s.eventSource <;> simp [hes]
  · intro h2
    unfold connect disconnect
    cases hes : s.eventSource <;> simp [hes]

/-- Witness for the amended C7: from the constructor state (no handle held),
connect with an empty token only logs. -/
theorem C7_amended_empty_token_witness :
    connect ("http://x") ("") initState =
      (initState, [Effect.logError ("SSE: No token provided")]) :=
  (C7_amended_empty_token ("http://x") initState).1 rfl

/-- C8: testConnection declares testUrl with const and then reassigns it when
the base URL mentions ngrok (sseService.js lines 291-295); the reassignment
throws a TypeError inside the promise executor, so for any ngrok base URL the
returned promise rejects — no verdict is ever resolved and no throwaway handle
is created — contradicting the documented always-resolves contract (connect
itself uses let for the same construction, showing the intent).  For non-ngrok
base URLs every racing outcome closes the throwaway handle and then resolves
exactly once. -/
theorem C8_const_testUrl_bug :
    testConnection ("https://abc.ngrok-free.app") ("tok") TestOutcome.opened =
      Except.error () ∧
    testConnection ("https://abc.ngrok-free.app") ("tok") TestOutcome.errored =
      Except.error () ∧
    testConnection ("https://abc.ngrok-free.app") ("tok") TestOutcome.timedOut =
      Except.error () ∧
    testConnection ("http://localhost:8000") ("tok") TestOutcome.opened =
      Except.ok [TestEv.tCreate ("http://localhost:8000/api/sse-simple/?token=tok"),
        TestEv.tClose, TestEv.tResolve true] ∧
    testConnection ("http://localhost:8000") ("tok") TestOutcome.errored =
      Except.ok [TestEv.tCreate ("http://localhost:8000/api/sse-simple/?token=tok"),
        TestEv.tClose, TestEv.tResolve false] ∧
    testConnection ("http://localhost:8000") ("tok") TestOutcome.timedOut =
      Except.ok [TestEv.tCreate ("http://localhost:8000/api/sse-simple/?token=tok"),
        TestEv.tClose, TestEv.tResolve false] :=
  ⟨rfl, rfl, rfl, rfl, rfl, rfl⟩

/-- Setting a key makes it readable back. -/
theorem mapGet_mapSet_self (m : List (String × List Nat)) (k : String) (v : List Nat) :
    mapGet (mapSet m k v) k = some v := by
  induction m with
  | nil => simp [mapGet, mapSet]
  | cons kv rest ih => by_cases h : kv.1 = k <;> simp [mapGet, mapSet, h, ih]

/-- After onEvent the registered list for the event gains cb at the end. -/
theorem onEvent_get (s : SSEService) (event : String) (cb : Nat) :
    mapGet (onEvent s event cb).listeners event =
      some ((mapGet s.listeners event).getD [] ++ [cb]) := by
  unfold onEvent
  simp [mapGet_mapSet_self]

/-- Invocation counting commutes with building the invocation records. -/
theorem invocationsOf_map (cb : Nat) (env : Nat → EmitData → Except Unit Unit)
    (data : EmitData) (l : List Nat) :
    invocationsOf cb (l.map (fun c => (c, env c data))) =
      (l.filter (fun c => c == cb)).length := by
  induction l with
  | nil => rfl
  | cons c cs ih =>
      simp only [List.map_cons]
      unfold invocationsOf
      unfold invocationsOf at ih
      by_cases h : (c == cb) = true <;> simp [List.filter_cons, h, ih]

/-- Removing the first occurrence from a list that ends in two copies of cb
drops exactly one occurrence of cb. -/
theorem cnt_spliceFirst_append (cb : Nat) (l : List Nat) :
    ((spliceFirst cb (l ++ [cb, cb])).filter (fun c => c == cb)).length =
      (l.filter (fun c => c == cb)).length + 1 := by
  induction l with
  | nil => simp [spliceFirst]
  | cons c cs ih =>
      by_cases h : c = cb
      · subst h
        simp [spliceFirst, List.filter_append, List.filter_cons]
      · simp [spliceFirst, h, List.filter_cons, ih]

/-- C9: emit invokes every callback registered for the event in registration
order, recording each invocation with its own captured outcome (one throwing
callback is isolated: emit is total and still lists every later invocation);
registering the same callback twice yields exactly two extra invocations per
emit, and one off call removes only the first matching registration, leaving
exactly one extra invocation. -/
theorem C9_emit_order_isolation (env : Nat → EmitData → Except Unit Unit)
    (s : SSEService) (event : String) (data : EmitData) (cb : Nat) :
    emit env s event data =
      ((mapGet s.listeners event).getD []).map (fun c => (c, env c data)) ∧
    invocationsOf cb (emit env (onEvent (onEvent s event cb) event cb) event data) =
      invocationsOf cb (emit env s event data) + 2 ∧
    invocationsOf cb
        (emit env (off (onEvent (onEvent s event cb) event cb) event cb) event data) =
      invocationsOf cb (emit env s event data) + 1 := by
  have hbase : emit env s event data =
      ((mapGet s.listeners event).getD []).map (fun c => (c, env c data)) := by
    cases hm : mapGet s.listeners event <;> simp [emit, hm]
  have h1 := onEvent_get s event cb
  have h2 : mapGet (onEvent (onEvent s event cb) event cb).listeners event =
      some (((mapGet s.listeners event).getD [] ++ [cb]) ++ [cb]) := by
    rw [onEvent_get, h1]
    rfl
  have e2 : emit env (onEvent (onEvent s event cb) event cb) event data =
      (((mapGet s.listeners event).getD [] ++ [cb]) ++ [cb]).map
        (fun c => (c, env c data)) := by
    unfold emit
    rw [h2]
  have h3 : mapGet (off (onEvent (onEvent s event cb) event cb) event cb).listeners event =
      some (spliceFirst cb (((mapGet s.listeners event).getD [] ++ [cb]) ++ [cb])) := by
    unfold off
    rw [h2]
    simp [mapGet_mapSet_self]
  have e3 : emit env (off (onEvent (onEvent s event cb) event cb) event cb) event data =
      (spliceFirst cb (((mapGet s.listeners event).getD [] ++ [cb]) ++ [cb])).map
        (fun c => (c, env c data)) := by
    unfold emit
    rw [h3]
  refine ⟨hbase, ?_, ?_⟩
  · rw [e2, hbase, invocationsOf_map, invocationsOf_map]
    simp [List.filter_append]
  · rw [e3, hbase, invocationsOf_map, invocationsOf_map, List.append_assoc]
    have hs := cnt_spliceFirst_append cb ((mapGet s.listeners event).getD [])
    simpa using hs

end SSE
